import Mathlib

/-
Verification of the WRO 2025 Future Engineers control program
(src/Code/WRO_2025_Future_Engineers_Code.py).

The program's pure logic — color classification, voting, the priority-ordered
decision policy, lap-marker debouncing and the parking wait loop — is embedded
as executable Lean functions.  Sensor reads (get_rgb, get_front_mm,
get_side_mm, the per-iteration vote) are passed in as explicit arguments;
actuation calls (motor/steering commands with timing holds) are modelled as an
explicit trace of actions.  Python float arithmetic in the hue computation is
modelled over ℚ; every concrete sample evaluated here takes values on which
rational and IEEE double evaluation agree exactly.  Python's `%` with the
positive modulus 360 on integers coincides with Int.emod, and `%` on floats
with positive modulus coincides with x - m * floor (x / m).
-/

namespace WRO

/-- Steering angle for a red pillar (STEER_RIGHT_SIGN in the source). -/
def STEER_RIGHT_SIGN : ℤ := -30

/-- Steering angle for a green pillar (STEER_LEFT_SIGN in the source). -/
def STEER_LEFT_SIGN : ℤ := 30

/-- Wall-nudge steering angle (STEER_WALL_NUDGE). -/
def STEER_WALL_NUDGE : ℤ := 15

/-- Hard right cornering angle (STEER_RIGHT_TURN). -/
def STEER_RIGHT_TURN : ℤ := -45

/-- Hard left cornering angle (STEER_LEFT_TURN). -/
def STEER_LEFT_TURN : ℤ := 45

/-- Cornering hold in seconds (TURN_90_TIME_S = 0.90). -/
def TURN_90_TIME_S : ℚ := 9 / 10

/-- Sign-avoidance hold in seconds (SIGN_HOLD_S = 0.60). -/
def SIGN_HOLD_S : ℚ := 3 / 5

/-- Wall-nudge hold in seconds (WALL_NUDGE_S = 0.20). -/
def WALL_NUDGE_S : ℚ := 1 / 5

/-- Cruise drive speed (CRUISE_SPEED_DPS). -/
def CRUISE_SPEED_DPS : ℤ := 400

/-- Parking drive speed (PARK_SPEED_DPS). -/
def PARK_SPEED_DPS : ℤ := 300

/-- Front distance below this means corner zone (CORNER_FRONT_MM). -/
def CORNER_FRONT_MM : ℤ := 200

/-- Side distance above this means open to the right (CORNER_RIGHT_OPEN). -/
def CORNER_RIGHT_OPEN : ℤ := 600

/-- Side distance below this means tight corner (CORNER_RIGHT_TIGHT). -/
def CORNER_RIGHT_TIGHT : ℤ := 200

/-- Front distance below this suggests a pillar (PILLAR_FRONT_MM). -/
def PILLAR_FRONT_MM : ℤ := 250

/-- Side distance above this means not hugging a wall (PILLAR_SIDE_CLEAR). -/
def PILLAR_SIDE_CLEAR : ℤ := 350

/-- Side distance below this triggers the wall nudge (WALL_TOO_NEAR_MM). -/
def WALL_TOO_NEAR_MM : ℤ := 130

/-- Minimum channel sum for a color sample to be classified (MIN_VALUE_SUM). -/
def MIN_VALUE_SUM : ℕ := 40

/-- Sentinel distance returned by get_front_mm / get_side_mm on a failed or
absent reading (the source returns 99999 in every failure branch). -/
def SENTINEL_MM : ℤ := 99999

/-- Lap-marker cooldown in milliseconds (WHITE_COOLDOWN in main). -/
def WHITE_COOLDOWN : ℤ := 2000

/-- The four color labels the classifier can emit; the Python code uses the
strings red, green, magenta, white, and None for Unknown (we use
Option Label, with none standing for Unknown). -/
inductive Label where
  | red
  | green
  | magenta
  | white
deriving DecidableEq, Repr

/-- Enumeration order of the labels: the insertion order of the counts dict
in vote_color, which is the order Python's max iterates the keys in. -/
def label_idx : Label → ℕ
  | Label.red => 0
  | Label.green => 1
  | Label.magenta => 2
  | Label.white => 3

/-- Situations of the decision policy (spec §3 / §4.2). -/
inductive Situation where
  | CornerRightOpen
  | CornerLeftFailsafe
  | WallTooNear
  | PillarCandidate
  | NoAction
deriving DecidableEq, Repr

/-- Python float modulus with a positive modulus m: x % m = x - m * floor (x / m),
always in [0, m). -/
def pymod (x m : ℚ) : ℚ := x - m * (⌊x / m⌋ : ℚ)

/-- hue_from_rgb from the source: standard max/min-channel HSV hue over the
normalized channels; None when the sample is fully desaturated (max = min).
Channels are the integers returned by get_rgb, arithmetic is over ℚ. -/
def hue_from_rgb (r g b : ℕ) : Option ℚ :=
  let r' : ℚ := (r : ℚ) / 100
  let g' : ℚ := (g : ℚ) / 100
  let b' : ℚ := (b : ℚ) / 100
  let mx := max r' (max g' b')
  let mn := min r' (min g' b')
  let d := mx - mn
  if d = 0 then none
  else if mx = r' then some (60 * pymod ((g' - b') / d) 6)
  else if mx = g' then some (60 * ((b' - r') / d + 2))
  else some (60 * ((r' - g') / d + 4))

/-- in_window from the source: hue-window membership with wraparound.
lo and hi are (center ± win) % 360 with Python integer %, which for the
positive modulus 360 is Int.emod.  When lo ≤ hi the window is the plain
interval; when lo > hi it spans the 0/360 seam and membership is
h ≥ lo or h ≤ hi.  A None hue is never a member. -/
def in_window (h : Option ℚ) (center win : ℤ) : Bool :=
  match h with
  | none => false
  | some hv =>
    let lo := (center - win) % 360
    let hi := (center + win) % 360
    if lo ≤ hi then decide ((lo : ℚ) ≤ hv) && decide (hv ≤ (hi : ℚ))
    else decide ((lo : ℚ) ≤ hv) || decide (hv ≤ (hi : ℚ))

/-- The white brightness/balance test shared textually by classify_once and
see_white_marker: all channels above 60 and maximum pairwise difference
below 15. -/
def white_test (r g b : ℕ) : Bool :=
  decide (60 < r) && decide (60 < g) && decide (60 < b) &&
    decide (max (max ((r : ℤ) - g).natAbs ((g : ℤ) - b).natAbs)
      ((r : ℤ) - b).natAbs < 15)

/-- classify_once from the source, with the get_rgb sample passed in
explicitly.  Dark samples (channel sum below MIN_VALUE_SUM) are rejected as
Unknown; then the hue windows red (0/360 ± 20), green (120 ± 25),
magenta (300 ± 25) are tried in order; then the white test; else Unknown. -/
def classify_once (r g b : ℕ) : Option Label :=
  if r + g + b < MIN_VALUE_SUM then none
  else
    let h := hue_from_rgb r g b
    if in_window h 0 20 || in_window h 360 20 then some Label.red
    else if in_window h 120 25 then some Label.green
    else if in_window h 300 25 then some Label.magenta
    else if white_test r g b then some Label.white
    else none

/-- see_white_marker from the source, with the get_rgb sample passed in
explicitly: the single-sample white brightness/balance check (no hue, no
voting) used for fast lap-marker polling. -/
def see_white_marker (r g b : ℕ) : Bool := white_test r g b

/-- Number of occurrences of label l in a sequence of classify_once results
(the counts dict of vote_color; None results are not counted). -/
def count_label (cs : List (Option Label)) (l : Label) : ℕ := cs.count (some l)

/-- Python max(counts, key=...) over the dict with insertion order
red, green, magenta, white: fold that replaces the current best only on a
strictly greater count, so the first key attaining the maximum wins. -/
def max_key (c : Label → ℕ) : Label :=
  [Label.green, Label.magenta, Label.white].foldl
    (fun best k => if c best < c k then k else best) Label.red

/-- vote_color from the source, with the sequence of per-sample
classify_once results passed in explicitly: tally counts per label, pick the
first label with the maximal count in enumeration order, and return it only
if its count reaches the quorum of 2; otherwise Unknown (none). -/
def vote_color (cs : List (Option Label)) : Option Label :=
  let winner := max_key (count_label cs)
  if 2 ≤ count_label cs winner then some winner else none

/-- Condition of detector 1 (handle_cornering, first branch): front blocked
and right open. -/
def corner_right_open_cond (ud sd : ℤ) : Bool :=
  decide (ud < CORNER_FRONT_MM) && decide (CORNER_RIGHT_OPEN < sd)

/-- Condition of detector 2 (handle_cornering, second branch): front and
right both tight. -/
def corner_left_failsafe_cond (ud sd : ℤ) : Bool :=
  decide (ud < CORNER_FRONT_MM) && decide (sd < CORNER_RIGHT_TIGHT)

/-- Condition of detector 3 (handle_wall_nudge): side too near. -/
def wall_too_near_cond (sd : ℤ) : Bool := decide (sd < WALL_TOO_NEAR_MM)

/-- Condition of detector 4 (handle_pillar): front blocked and side clear. -/
def pillar_candidate_cond (ud sd : ℤ) : Bool :=
  decide (ud < PILLAR_FRONT_MM) && decide (PILLAR_SIDE_CLEAR < sd)

/-- handle_cornering as a situation detector: first branch CornerRightOpen,
second branch CornerLeftFailsafe, none when neither condition holds. -/
def handle_cornering (ud sd : ℤ) : Option Situation :=
  if corner_right_open_cond ud sd then some Situation.CornerRightOpen
  else if corner_left_failsafe_cond ud sd then some Situation.CornerLeftFailsafe
  else none

/-- handle_wall_nudge as a situation detector. -/
def handle_wall_nudge (sd : ℤ) : Option Situation :=
  if wall_too_near_cond sd then some Situation.WallTooNear else none

/-- The detection part of handle_pillar as a situation detector. -/
def handle_pillar_detect (ud sd : ℤ) : Option Situation :=
  if pillar_candidate_cond ud sd then some Situation.PillarCandidate else none

/-- The decision policy of one main-loop iteration: the if / elif / else
chain of main calls handle_cornering (which itself tries CornerRightOpen
then CornerLeftFailsafe), then handle_wall_nudge, then handle_pillar; the
first detector that fires wins and the rest are skipped. -/
def decision_policy (ud sd : ℤ) : Situation :=
  match handle_cornering ud sd with
  | some s => s
  | none =>
    match handle_wall_nudge sd with
    | some s => s
    | none =>
      match handle_pillar_detect ud sd with
      | some s => s
      | none => Situation.NoAction


/-- C1: The decision policy of one main-loop iteration evaluates the four
situation detectors in strict priority order — CornerRightOpen, then
CornerLeftFailsafe, then WallTooNear, then PillarCandidate — and the first
detector whose condition holds fires while all later ones are skipped: each
situation is selected exactly when its condition holds and every
higher-priority condition fails.  In particular for frontMm = 150,
sideMm = 800 the policy selects CornerRightOpen. -/
theorem priority_order_first_match : ∀ ud sd : ℤ,
    decide (decision_policy ud sd = Situation.CornerRightOpen) =
      corner_right_open_cond ud sd
  ∧ decide (decision_policy ud sd = Situation.CornerLeftFailsafe) =
      (!corner_right_open_cond ud sd && corner_left_failsafe_cond ud sd)
  ∧ decide (decision_policy ud sd = Situation.WallTooNear) =
      (!corner_right_open_cond ud sd && !corner_left_failsafe_cond ud sd &&
        wall_too_near_cond sd)
  ∧ decide (decision_policy ud sd = Situation.PillarCandidate) =
      (!corner_right_open_cond ud sd && !corner_left_failsafe_cond ud sd &&
        !wall_too_near_cond sd && pillar_candidate_cond ud sd)
  ∧ decision_policy 150 800 = Situation.CornerRightOpen := by
  refine fun ud sd => ⟨?_, ?_, ?_, ?_, by decide⟩ <;>
  · cases h1 : corner_right_open_cond ud sd <;>
      cases h2 : corner_left_failsafe_cond ud sd <;>
        cases h3 : wall_too_near_cond sd <;>
          cases h4 : pillar_candidate_cond ud sd <;>
            simp [decision_policy, handle_cornering, handle_wall_nudge,
              handle_pillar_detect, h1, h2, h3, h4]

/-- C2 counterexample: the four detector conditions are not mutually
exclusive.  At frontMm = 150, sideMm = 800 the CornerRightOpen and
PillarCandidate conditions both hold, and at frontMm = 150, sideMm = 100 the
CornerLeftFailsafe and WallTooNear conditions both hold, so more than one of
the four conditions can hold on a single reading. -/
theorem detector_overlap_cex :
    corner_right_open_cond 150 800 = true
  ∧ pillar_candidate_cond 150 800 = true
  ∧ corner_left_failsafe_cond 150 100 = true
  ∧ wall_too_near_cond 100 = true := by decide

/-- C2 amended: only four of the six pairs of detector conditions are
mutually exclusive — CornerRightOpen with CornerLeftFailsafe, CornerRightOpen
with WallTooNear, CornerLeftFailsafe with PillarCandidate, and WallTooNear
with PillarCandidate never hold together; the remaining pairs
(CornerRightOpen with PillarCandidate, CornerLeftFailsafe with WallTooNear)
can overlap, and the priority order decides which fires. -/
theorem detector_pairwise_exclusive : ∀ ud sd : ℤ,
    (corner_right_open_cond ud sd && corner_left_failsafe_cond ud sd) = false
  ∧ (corner_right_open_cond ud sd && wall_too_near_cond sd) = false
  ∧ (corner_left_failsafe_cond ud sd && pillar_candidate_cond ud sd) = false
  ∧ (wall_too_near_cond sd && pillar_candidate_cond ud sd) = false := by
  intro ud sd
  refine ⟨?_, ?_, ?_, ?_⟩ <;>
  · simp only [corner_right_open_cond, corner_left_failsafe_cond,
      wall_too_near_cond, pillar_candidate_cond, CORNER_FRONT_MM,
      CORNER_RIGHT_OPEN, CORNER_RIGHT_TIGHT, PILLAR_FRONT_MM,
      PILLAR_SIDE_CLEAR, WALL_TOO_NEAR_MM, Bool.eq_false_iff, ne_eq,
      Bool.and_eq_true, decide_eq_true_eq]
    omega

/-- C3: any RGB sample whose channel sum is below the minimum-brightness
threshold MIN_VALUE_SUM = 40 is classified Unknown (none) by classify_once;
in particular the sensor-failure sample (0,0,0) is (see the witness). -/
theorem dark_sample_unknown : ∀ r g b : ℕ,
    r + g + b < MIN_VALUE_SUM → classify_once r g b = none := by
  intro r g b h
  simp only [classify_once, if_pos h]

/-- Witness for C3: the sensor-failure sample (0,0,0) is below the
brightness floor and classify_once resolves it to Unknown. -/
theorem dark_sample_unknown_witness :
    0 + 0 + 0 < MIN_VALUE_SUM ∧ classify_once 0 0 0 = none :=
  ⟨by decide, dark_sample_unknown 0 0 0 (by decide)⟩

/-- C6: the sentinel distance 99999 returned on a failed sensor read never
satisfies any below-threshold test of the decision policy (it behaves as
"far"), and with the front reading at the sentinel and the side reading at
100 mm the policy selects WallTooNear, not a corner or pillar situation. -/
theorem sentinel_far :
    decision_policy SENTINEL_MM 100 = Situation.WallTooNear
  ∧ decide (SENTINEL_MM < CORNER_FRONT_MM) = false
  ∧ decide (SENTINEL_MM < CORNER_RIGHT_TIGHT) = false
  ∧ decide (SENTINEL_MM < PILLAR_FRONT_MM) = false
  ∧ decide (SENTINEL_MM < WALL_TOO_NEAR_MM) = false := by decide

/-- C4: wraparound membership.  Whenever the reduced window bounds satisfy
lo > hi (the window spans the 0/360 seam), in_window accepts a hue exactly
when it is at or above lo or at or below hi; and hue 355 lies in the red
window (center 0, ±20) exactly as hue 5 does — both are members. -/
theorem in_window_wraparound : ∀ (center win : ℤ) (h : ℚ),
    ((center + win) % 360 < (center - win) % 360 →
      in_window (some h) center win =
        (decide ((((center - win) % 360 : ℤ) : ℚ) ≤ h) ||
          decide (h ≤ (((center + win) % 360 : ℤ) : ℚ))))
  ∧ in_window (some 355) 0 20 = true
  ∧ in_window (some 5) 0 20 = true := by
  intro center win h
  refine ⟨fun hlt => ?_, by decide, by decide⟩
  simp only [in_window]
  rw [if_neg (by omega)]

/-- Witness for C4: the red window (center 0, ±20) reduces to lo = 340,
hi = 20 with lo > hi, and membership of hue 355 is decided by the seam rule. -/
theorem in_window_wraparound_witness :
    ((0 : ℤ) + 20) % 360 < ((0 : ℤ) - 20) % 360
  ∧ in_window (some 355) 0 20 =
      (decide (((((0 : ℤ) - 20) % 360 : ℤ) : ℚ) ≤ 355) ||
        decide ((355 : ℚ) ≤ ((((0 : ℤ) + 20) % 360 : ℤ) : ℚ))) :=
  ⟨by decide, (in_window_wraparound 0 20 355).1 (by decide)⟩

/-- The fold implementing Python max over the counts dict returns a label
whose count is maximal. -/
theorem max_key_le (c : Label → ℕ) : ∀ l, c l ≤ c (max_key c) := by
  intro l
  simp only [max_key, List.foldl]
  cases l <;> split_ifs <;> omega

/-- The fold implementing Python max returns the FIRST label attaining the
maximal count in the enumeration order red, green, magenta, white: any label
with the same count has an index at least as large. -/
theorem max_key_first (c : Label → ℕ) :
    ∀ l, c l = c (max_key c) → label_idx (max_key c) ≤ label_idx l := by
  intro l h
  simp only [max_key, List.foldl] at h ⊢
  split_ifs at h ⊢ <;> cases l <;> simp only [label_idx] at h ⊢ <;> omega

/-- C5: for every sequence of per-sample labels, vote_color returns a label
only if its tally is at least the quorum of 2 and is maximal, with ties
resolved in favor of the earliest label in the enumeration order red, green,
magenta, white; and it returns Unknown (none) exactly when no label reaches
the quorum.  Being a pure function of the sample sequence, the vote is
deterministic. -/
theorem vote_quorum_tiebreak : ∀ cs : List (Option Label),
    (∀ l, vote_color cs = some l →
        2 ≤ count_label cs l
      ∧ (∀ m, count_label cs m ≤ count_label cs l)
      ∧ (∀ m, count_label cs m = count_label cs l → label_idx l ≤ label_idx m))
  ∧ (vote_color cs = none ↔ ∀ m, count_label cs m < 2) := by
  intro cs
  constructor
  · intro l hl
    unfold vote_color at hl
    by_cases hq : 2 ≤ count_label cs (max_key (count_label cs))
    · rw [if_pos hq] at hl
      obtain rfl : max_key (count_label cs) = l := by
        exact Option.some_injective _ hl
      exact ⟨hq, max_key_le _, fun m hm => max_key_first _ m hm⟩
    · rw [if_neg hq] at hl
      exact absurd hl (by simp)
  · unfold vote_color
    by_cases hq : 2 ≤ count_label cs (max_key (count_label cs))
    · rw [if_pos hq]
      constructor
      · intro h
        exact absurd h (by simp)
      · intro h
        exact absurd hq (not_le.mpr (h _))
    · rw [if_neg hq]
      constructor
      · intro _ m
        have := max_key_le (count_label cs) m
        omega
      · intro _
        rfl

/-- Witness for C5: on the sample sequence red, red, Unknown the vote is
red, whose tally 2 meets the quorum. -/
theorem vote_quorum_tiebreak_witness :
    2 ≤ count_label [some Label.red, some Label.red, none] Label.red :=
  ((vote_quorum_tiebreak [some Label.red, some Label.red, none]).1 Label.red
    (by rfl)).1

/-- Actuation primitives of the Maneuver Executor, recorded as a trace:
brake (drive_stop), run the drive motor at a speed (drive_forward /
run_at_speed), steer to an angle (steer_to; 0 is straight), a timing hold in
seconds (time.sleep), a wait in milliseconds (wait_ms), and the probe arm
moves (probe_down / probe_up). -/
inductive Act where
  | stopDrive : Act
  | driveAt : ℤ → Act
  | steerTo : ℤ → Act
  | sleepS : ℚ → Act
  | waitMs : ℕ → Act
  | probeDown : Act
  | probeUp : Act
deriving DecidableEq, Repr

/-- steer_arc from the source: steer to the angle, hold, return straight. -/
def steer_arc (angle : ℤ) (hold : ℚ) : List Act :=
  [Act.steerTo angle, Act.sleepS hold, Act.steerTo 0]

/-- handle_pillar from the source, with the vote_color result passed in
explicitly; returns whether the detector fired and the actuation trace:
stop, probe down, 120 ms settle, (vote), probe up, then the sign-avoidance
arc chosen by the vote (green → left, red → right, anything else → no
steering), then resume driving at cruise speed. -/
def handle_pillar (ud sd : ℤ) (sig : Option Label) : Bool × List Act :=
  if pillar_candidate_cond ud sd then
    (true,
      [Act.stopDrive, Act.probeDown, Act.waitMs 120, Act.probeUp] ++
        (match sig with
          | some Label.green => steer_arc STEER_LEFT_SIGN SIGN_HOLD_S
          | some Label.red => steer_arc STEER_RIGHT_SIGN SIGN_HOLD_S
          | _ => []) ++
        [Act.driveAt CRUISE_SPEED_DPS])
  else (false, [])

/-- The wait-for-magenta loop of do_parking, run against the sequence of
vote_color results the loop would observe: it exits (breaks) exactly at the
first magenta vote; if the observed sequence ends without a magenta the loop
is still waiting.  There is no other exit in the source. -/
def parking_wait_exits : List (Option Label) → Bool
  | [] => false
  | c :: rest => if c = some Label.magenta then true else parking_wait_exits rest

/-- do_parking from the source against an observed vote sequence: stop, wait
for magenta, and only after the wait exits run the parking arc (shallow left
steer, reduced-speed drive for 1.5 s, stop, straighten); the Bool records
whether the maneuver completed (the phase may move to Finished). -/
def do_parking (votes : List (Option Label)) : List Act × Bool :=
  if parking_wait_exits votes then
    ([Act.stopDrive, Act.steerTo 30, Act.driveAt PARK_SPEED_DPS,
      Act.sleepS (3 / 2), Act.stopDrive, Act.steerTo 0], true)
  else ([Act.stopDrive], false)

/-- LapState of the Racing phase: laps_done and last_white_ms in main. -/
structure LapState where
  laps : ℕ
  last_white_ms : ℤ
deriving DecidableEq, Repr

/-- The lap-detection step of one Racing iteration: when the fast marker
check sees the tile and the elapsed time since the last accepted detection
strictly exceeds WHITE_COOLDOWN, increment laps_done and record the current
timestamp; otherwise leave the state unchanged. -/
def lap_update (st : LapState) (seen : Bool) (now : ℤ) : LapState :=
  if seen && decide (WHITE_COOLDOWN < now - st.last_white_ms) then
    { laps := st.laps + 1, last_white_ms := now }
  else st

/-- C7: a marker detection increments the lap count only when the elapsed
time since the last accepted detection exceeds the 2000 ms cooldown, and
each accepted detection records the current timestamp; two detections
500 ms apart starting from the initial state count as one lap, not two. -/
theorem lap_cooldown : ∀ (st : LapState) (now : ℤ),
    (now - st.last_white_ms ≤ WHITE_COOLDOWN → lap_update st true now = st)
  ∧ (WHITE_COOLDOWN < now - st.last_white_ms →
      (lap_update st true now).laps = st.laps + 1
    ∧ (lap_update st true now).last_white_ms = now)
  ∧ (lap_update (lap_update { laps := 0, last_white_ms := -99999 } true 0)
      true 500).laps = 1 := by
  intro st now
  refine ⟨fun h => ?_, fun h => ?_, by decide⟩
  · have hc : (true && decide (WHITE_COOLDOWN < now - st.last_white_ms)) = false := by
      simp only [Bool.true_and, decide_eq_false_iff_not, not_lt]
      exact h
    simp [lap_update, hc]
  · have hc : (true && decide (WHITE_COOLDOWN < now - st.last_white_ms)) = true := by
      simp only [Bool.true_and, decide_eq_true_eq]
      exact h
    simp [lap_update, hc]

/-- Witness for C7: with the last accepted detection at time 0, a second
detection at time 500 is within the cooldown and leaves the state
unchanged. -/
theorem lap_cooldown_witness :
    (500 : ℤ) - (0 : ℤ) ≤ WHITE_COOLDOWN
  ∧ lap_update { laps := 1, last_white_ms := 0 } true 500 =
      { laps := 1, last_white_ms := 0 } :=
  ⟨by decide, (lap_cooldown { laps := 1, last_white_ms := 0 } 500).1 (by decide)⟩

/-- C8: the Parking phase leaves its wait loop only on a Magenta vote: the
wait exits exactly when the observed vote sequence contains a magenta, and
for any sequence with no magenta the parking maneuver is never executed and
the phase never completes — there is no timeout escape (an exhausted
sequence leaves the loop still waiting, having only stopped the drive). -/
theorem parking_requires_magenta : ∀ votes : List (Option Label),
    (parking_wait_exits votes = true ↔ some Label.magenta ∈ votes)
  ∧ (some Label.magenta ∉ votes →
      do_parking votes = ([Act.stopDrive], false)) := by
  intro votes
  have hiff : parking_wait_exits votes = true ↔ some Label.magenta ∈ votes := by
    induction votes with
    | nil => simp [parking_wait_exits]
    | cons c rest ih =>
      by_cases hc : c = some Label.magenta
      · subst hc
        simp [parking_wait_exits]
      · simp only [parking_wait_exits, if_neg hc, ih, List.mem_cons]
        constructor
        · exact Or.inr
        · rintro (h | h)
          · exact absurd h.symm hc
          · exact h
  refine ⟨hiff, fun hn => ?_⟩
  have hf : parking_wait_exits votes = false := by
    cases hpw : parking_wait_exits votes with
    | false => rfl
    | true => exact absurd (hiff.mp hpw) hn
  simp [do_parking, hf]

/-- Witness for C8: a magenta-free vote sequence (red, Unknown, white) never
runs the parking maneuver and never completes the phase. -/
theorem parking_requires_magenta_witness :
    some Label.magenta ∉ [some Label.red, none, some Label.white]
  ∧ do_parking [some Label.red, none, some Label.white] =
      ([Act.stopDrive], false) :=
  ⟨by decide,
    (parking_requires_magenta [some Label.red, none, some Label.white]).2
      (by decide)⟩

/-- C9: when the pillar detector fires, the maneuver is determined by the
color vote: green steers to the left sign-avoidance angle for the sign hold
and then straightens, red steers symmetrically to the right
(STEER_RIGHT_SIGN = -STEER_LEFT_SIGN), and Unknown or any other label
applies no steering at all; in every case the trace ends by resuming the
drive at cruise speed. -/
theorem pillar_maneuver_by_color : ∀ (ud sd : ℤ) (sig : Option Label),
    pillar_candidate_cond ud sd = true →
      (handle_pillar ud sd (some Label.green)).2 =
        [Act.stopDrive, Act.probeDown, Act.waitMs 120, Act.probeUp,
          Act.steerTo STEER_LEFT_SIGN, Act.sleepS SIGN_HOLD_S, Act.steerTo 0,
          Act.driveAt CRUISE_SPEED_DPS]
    ∧ (handle_pillar ud sd (some Label.red)).2 =
        [Act.stopDrive, Act.probeDown, Act.waitMs 120, Act.probeUp,
          Act.steerTo STEER_RIGHT_SIGN, Act.sleepS SIGN_HOLD_S, Act.steerTo 0,
          Act.driveAt CRUISE_SPEED_DPS]
    ∧ STEER_RIGHT_SIGN = -STEER_LEFT_SIGN
    ∧ ((sig = none ∨ sig = some Label.magenta ∨ sig = some Label.white) →
        (handle_pillar ud sd sig).2 =
          [Act.stopDrive, Act.probeDown, Act.waitMs 120, Act.probeUp,
            Act.driveAt CRUISE_SPEED_DPS])
    ∧ ∃ pre : List Act,
        (handle_pillar ud sd sig).2 = pre ++ [Act.driveAt CRUISE_SPEED_DPS] := by
  intro ud sd sig h
  refine ⟨?_, ?_, by decide, ?_, ?_⟩
  · simp [handle_pillar, h, steer_arc]
  · simp [handle_pillar, h, steer_arc]
  · rintro (rfl | rfl | rfl) <;> simp [handle_pillar, h]
  · cases sig with
    | none =>
      exact ⟨[Act.stopDrive, Act.probeDown, Act.waitMs 120, Act.probeUp],
        by simp [handle_pillar, h]⟩
    | some l =>
      cases l with
      | red =>
        exact ⟨[Act.stopDrive, Act.probeDown, Act.waitMs 120, Act.probeUp,
          Act.steerTo STEER_RIGHT_SIGN, Act.sleepS SIGN_HOLD_S, Act.steerTo 0],
          by simp [handle_pillar, h, steer_arc]⟩
      | green =>
        exact ⟨[Act.stopDrive, Act.probeDown, Act.waitMs 120, Act.probeUp,
          Act.steerTo STEER_LEFT_SIGN, Act.sleepS SIGN_HOLD_S, Act.steerTo 0],
          by simp [handle_pillar, h, steer_arc]⟩
      | magenta =>
        exact ⟨[Act.stopDrive, Act.probeDown, Act.waitMs 120, Act.probeUp],
          by simp [handle_pillar, h]⟩
      | white =>
        exact ⟨[Act.stopDrive, Act.probeDown, Act.waitMs 120, Act.probeUp],
          by simp [handle_pillar, h]⟩

/-- Witness for C9: at frontMm = 150, sideMm = 400 the pillar detector fires
and an Unknown vote yields the no-steering trace. -/
theorem pillar_maneuver_by_color_witness :
    pillar_candidate_cond 150 400 = true
  ∧ (handle_pillar 150 400 none).2 =
      [Act.stopDrive, Act.probeDown, Act.waitMs 120, Act.probeUp,
        Act.driveAt CRUISE_SPEED_DPS] :=
  ⟨by decide,
    (pillar_maneuver_by_color 150 400 none (by decide)).2.2.2.1 (Or.inl rfl)⟩

/-- C10: the fast marker check and the full classifier disagree on the
bright, balanced sample (70, 62, 62): see_white_marker accepts it as a white
marker, while classify_once labels it red, because its hue (exactly 0) falls
in the red window, which classify_once tests before the white
brightness/balance test that see_white_marker alone applies. -/
theorem marker_vs_classifier_disagree :
    see_white_marker 70 62 62 = true
  ∧ classify_once 70 62 62 = some Label.red := by
  constructor
  · decide
  · have hh : hue_from_rgb 70 62 62 = some 0 := by
      norm_num [hue_from_rgb, pymod, max_def, min_def]
    have hw : in_window (some (0 : ℚ)) 0 20 = true := by decide
    norm_num [classify_once, hh, hw, MIN_VALUE_SUM]

end WRO
